import Mathlib

/-!
Limelight wrapper (`src/Limelight.h`).

A shallow embedding of the `Limelight` class: a handle bound to a named table of the
process-wide NetworkTables instance, six typed read accessors, three typed mutators and
the raw accessor `get()`.

Stateful C++ becomes explicit state passing over `NetworkTableInstance`: a method that
returns a value is a function `state → value × state`, a `void` method is a function
`state → state`.  `double` values are kept as their IEEE-754 binary64 fields, so
"returns exactly `v`" is identity of the stored bits.
-/

set_option linter.unusedVariables false

/-! ## C++ `double` -/

/-- An IEEE-754 binary64 value by its three fields: the sign bit, the 11-bit biased
exponent and the 52-bit fraction. -/
structure Double where
  sign : Bool
  expo : Nat
  frac : Nat
deriving DecidableEq, Repr

/-- The literal `0.0` (positive zero: all bits clear). -/
def Double.zero : Double := ⟨false, 0, 0⟩

/-- The fields fit their widths. -/
def Double.wellFormed (d : Double) : Prop := d.expo < 2048 ∧ d.frac < 2 ^ 52

instance (d : Double) : Decidable d.wellFormed := by
  unfold Double.wellFormed; infer_instance

/-- Normalisation step of the integer-to-double conversion: shift the significand `m`
left, decrementing the biased exponent `e`, until bit 52 (the hidden bit) is set. -/
def Double.normalize : Nat → Nat → Nat → Nat × Nat
  | 0, m, e => (m, e)
  | fuel + 1, m, e => if 2 ^ 52 ≤ m then (m, e) else Double.normalize fuel (2 * m) (e - 1)

/-- The implicit conversion of an integer (an `int` or an unscoped enumerator) to
`double`, as it happens at a call `PutNumber(key, i)`.  Exact for every magnitude below
`2 ^ 53`, which covers all 32-bit `int` values. -/
def Double.ofInt (i : Int) : Double :=
  if i = 0 then Double.zero
  else
    let r := Double.normalize 52 i.natAbs 1075
    ⟨decide (i < 0), r.2, r.1 - 2 ^ 52⟩

/-- The rational number a finite double stands for (`none` for infinities and NaN). -/
def Double.toRat (d : Double) : Option ℚ :=
  if d.expo = 2047 then none
  else
    let mag : ℚ :=
      if d.expo = 0 then (d.frac : ℚ) * (2 : ℚ) ^ (-1074 : ℤ)
      else ((2 : ℚ) ^ 52 + (d.frac : ℚ)) * (2 : ℚ) ^ ((d.expo : ℤ) - 1075)
    some (if d.sign then -mag else mag)

/-! ## The NetworkTables collaborator -/

/-- Modelled from the spec: the primitive values a table entry can hold (the
NetworkTables library is not part of this repository).  A boolean, a number
(`double`) or a value of some other kind, here a string. -/
inductive Value where
  | boolean (b : Bool)
  | number (d : Double)
  | string (s : String)
deriving DecidableEq, Repr

/-- Modelled from the spec: the process-wide table registry behind
`NetworkTableInstance::GetDefault()`, keyed by the table name.  Each table is the log of
the writes published to it, most recent first; a table nobody wrote to is the empty
log, so looking a name up never fails. -/
structure NetworkTableInstance where
  tables : String → List (String × Value)

/-- Modelled from the spec: a `std::shared_ptr<NetworkTable>`, a non-owning reference to
the table registered under `path`. -/
structure NetworkTable where
  path : String
deriving DecidableEq, Repr

/-- The most recently published value of `key` in a write log. -/
def lookupEntry (key : String) : List (String × Value) → Option Value
  | [] => none
  | (k, v) :: rest => if k = key then some v else lookupEntry key rest

/-- Modelled from the spec: `resolve(name) -> TableHandle`, the registry's
`GetTable(name)`. -/
def NetworkTableInstance.GetTable (name : String) (s : NetworkTableInstance) :
    NetworkTable × NetworkTableInstance :=
  (⟨name⟩, s)

/-- Modelled from the spec: raw read of a key, `none` when it was never published. -/
def NetworkTable.GetValue (t : NetworkTable) (key : String) (s : NetworkTableInstance) :
    Option Value × NetworkTableInstance :=
  (lookupEntry key (s.tables t.path), s)

/-- Modelled from the spec: `getBoolean(key, default) -> boolean`; the default is
substituted when the key is absent or holds a value of another type. -/
def NetworkTable.GetBoolean (t : NetworkTable) (key : String) (defaultValue : Bool)
    (s : NetworkTableInstance) : Bool × NetworkTableInstance :=
  match lookupEntry key (s.tables t.path) with
  | some (Value.boolean b) => (b, s)
  | _ => (defaultValue, s)

/-- Modelled from the spec: `getNumber(key, default) -> float`; the default is
substituted when the key is absent or holds a value of another type. -/
def NetworkTable.GetNumber (t : NetworkTable) (key : String) (defaultValue : Double)
    (s : NetworkTableInstance) : Double × NetworkTableInstance :=
  match lookupEntry key (s.tables t.path) with
  | some (Value.number d) => (d, s)
  | _ => (defaultValue, s)

/-- Modelled from the spec: a write is a pure overwrite of one key of one table: the
new value is published on top of that table's log, every other table is untouched. -/
def NetworkTable.PutValue (t : NetworkTable) (key : String) (v : Value)
    (s : NetworkTableInstance) : NetworkTableInstance :=
  ⟨fun name => if name = t.path then (key, v) :: s.tables name else s.tables name⟩

/-- Modelled from the spec: `putNumber(key, value) -> void`. -/
def NetworkTable.PutNumber (t : NetworkTable) (key : String) (value : Double)
    (s : NetworkTableInstance) : NetworkTableInstance :=
  t.PutValue key (Value.number value) s

/-- Modelled from the spec: the boolean counterpart of `putNumber`, used by the device
side and by raw writers. -/
def NetworkTable.PutBoolean (t : NetworkTable) (key : String) (value : Bool)
    (s : NetworkTableInstance) : NetworkTableInstance :=
  t.PutValue key (Value.boolean value) s

/-! ## `src/Limelight.h` -/

/-- Enumeration `enum LEDmode`: unscoped, so the enumerators are `0, 1, 2, 3` in order. -/
inductive LEDmode where
  | pipeline
  | off
  | blink
  | on
deriving DecidableEq, Repr

/-- The integer an `LEDmode` enumerator converts to. -/
def LEDmode.toInt : LEDmode → Int
  | LEDmode.pipeline => 0
  | LEDmode.off => 1
  | LEDmode.blink => 2
  | LEDmode.on => 3

/-- Enumeration `enum CamMode`: `vision = 0`, `driver = 1`. -/
inductive CamMode where
  | vision
  | driver
deriving DecidableEq, Repr

/-- The integer a `CamMode` enumerator converts to. -/
def CamMode.toInt : CamMode → Int
  | CamMode.vision => 0
  | CamMode.driver => 1

/-- Class `Limelight`: its only member is the table reference `limelight`. -/
structure Limelight where
  limelight : NetworkTable
deriving DecidableEq, Repr

/-- The constructor `Limelight::Limelight(tableName)`:
`limelight = NetworkTableInstance::GetDefault().GetTable(tableName)`. -/
def Limelight.new (tableName : String) (s : NetworkTableInstance) :
    Limelight × NetworkTableInstance :=
  let r := NetworkTableInstance.GetTable tableName s
  (⟨r.1⟩, r.2)

/-- The constructor called without an argument: `tableName` defaults to "limelight". -/
def Limelight.newDefault (s : NetworkTableInstance) : Limelight × NetworkTableInstance :=
  Limelight.new "limelight" s

/-- Method `get()`: `return limelight;` -/
def Limelight.get (self : Limelight) (s : NetworkTableInstance) :
    NetworkTable × NetworkTableInstance :=
  (self.limelight, s)

/-- Method `hasTarget()`: `return limelight->GetBoolean("tv", false);` -/
def Limelight.hasTarget (self : Limelight) (s : NetworkTableInstance) :
    Bool × NetworkTableInstance :=
  self.limelight.GetBoolean "tv" false s

/-- Method `getTargetX()`: `return limelight->GetNumber("tx", 0.0);` -/
def Limelight.getTargetX (self : Limelight) (s : NetworkTableInstance) :
    Double × NetworkTableInstance :=
  self.limelight.GetNumber "tx" Double.zero s

/-- Method `getTargetY()`: `return limelight->GetNumber("ty", 0.0);` -/
def Limelight.getTargetY (self : Limelight) (s : NetworkTableInstance) :
    Double × NetworkTableInstance :=
  self.limelight.GetNumber "ty" Double.zero s

/-- Method `getTargetArea()`: `return limelight->GetNumber("ta", 0.0);` -/
def Limelight.getTargetArea (self : Limelight) (s : NetworkTableInstance) :
    Double × NetworkTableInstance :=
  self.limelight.GetNumber "ta" Double.zero s

/-- Method `getTargetSkew()`: `return limelight->GetNumber("ts", 0.0);` -/
def Limelight.getTargetSkew (self : Limelight) (s : NetworkTableInstance) :
    Double × NetworkTableInstance :=
  self.limelight.GetNumber "ts" Double.zero s

/-- Method `getPipelineLatency()`: `return limelight->GetNumber("tl", 0.0);` -/
def Limelight.getPipelineLatency (self : Limelight) (s : NetworkTableInstance) :
    Double × NetworkTableInstance :=
  self.limelight.GetNumber "tl" Double.zero s

/-- Method `setLEDMode(mode)`: `limelight->PutNumber("ledMode", mode);` -/
def Limelight.setLEDMode (self : Limelight) (mode : LEDmode) (s : NetworkTableInstance) :
    NetworkTableInstance :=
  self.limelight.PutNumber "ledMode" (Double.ofInt mode.toInt) s

/-- Method `setCamMode(mode)`: `limelight->PutNumber("camMode", 0.0);` (the argument is not
used by the body). -/
def Limelight.setCamMode (self : Limelight) (mode : CamMode) (s : NetworkTableInstance) :
    NetworkTableInstance :=
  self.limelight.PutNumber "camMode" Double.zero s

/-- Method `setPipeline(ID)`: `limelight->PutNumber("pipeline", ID);` with `ID` a C++ `int`. -/
def Limelight.setPipeline (self : Limelight) (ID : Int) (s : NetworkTableInstance) :
    NetworkTableInstance :=
  self.limelight.PutNumber "pipeline" (Double.ofInt ID) s

/-- The range of a C++ `int` (32 bits, two's complement). -/
def isCInt (i : Int) : Prop := -2 ^ 31 ≤ i ∧ i < 2 ^ 31

instance (i : Int) : Decidable (isCInt i) := by
  unfold isCInt; infer_instance

/-- The registry before anything was published: every table is empty. -/
def NetworkTableInstance.empty : NetworkTableInstance := ⟨fun _ => []⟩

/-- The handle every sample below goes through: the one `Limelight()` constructs. -/
def sampleHandle : Limelight := (Limelight.newDefault NetworkTableInstance.empty).1

/-- The double `3.5` (`1.75 * 2 ^ 1`). -/
def Double.threeAndHalf : Double := ⟨false, 1024, 3 * 2 ^ 50⟩

/-- The double `-12.25` (`-1.53125 * 2 ^ 3`). -/
def Double.minusTwelveAndQuarter : Double := ⟨true, 1026, 17 * 2 ^ 47⟩

/-- A quiet NaN. -/
def Double.quietNaN : Double := ⟨false, 2047, 2 ^ 51⟩

/-- A registry in which only the mode keys of the table "limelight" were written. -/
def sampleModesOnly : NetworkTableInstance :=
  ⟨fun name =>
    if name = "limelight" then
      [("pipeline", Value.number (Double.ofInt 5)), ("camMode", Value.number Double.zero),
        ("ledMode", Value.number (Double.ofInt 3))]
    else []⟩

/-- A registry in which the device published all six target keys of the table
"limelight", `tx` twice. -/
def samplePublished : NetworkTableInstance :=
  ⟨fun name =>
    if name = "limelight" then
      [("tx", Value.number Double.threeAndHalf), ("tv", Value.boolean true),
        ("tx", Value.number (Double.ofInt 7)), ("ty", Value.number Double.minusTwelveAndQuarter),
        ("ta", Value.number Double.quietNaN), ("ts", Value.number (Double.ofInt (-45))),
        ("tl", Value.number (Double.ofInt 21))]
    else []⟩

/-- A registry in which every target key of the table "limelight" holds a value of the
wrong type: `tv` the number `1.0`, the numeric keys a string or a boolean. -/
def sampleMistyped : NetworkTableInstance :=
  ⟨fun name =>
    if name = "limelight" then
      [("tv", Value.number (Double.ofInt 1)), ("tx", Value.string "left"),
        ("ty", Value.boolean true), ("ta", Value.string ""), ("ts", Value.boolean false),
        ("tl", Value.string "11")]
    else []⟩

example : Double.ofInt 1 = ⟨false, 1023, 0⟩ := by decide
example : Double.ofInt 3 = ⟨false, 1024, 2 ^ 51⟩ := by decide
example : Double.ofInt (-1) = ⟨true, 1023, 0⟩ := by decide
example : Double.ofInt 99 = ⟨false, 1029, 35 * 2 ^ 46⟩ := by decide
example : ((Limelight.new "limelight" NetworkTableInstance.empty).1.hasTarget
    NetworkTableInstance.empty).1 = false := by decide

/-! ## Lemmas on the conversion to `double` -/

theorem Double.normalize_spec (fuel : Nat) : ∀ (m e : Nat), 0 < m → m < 2 ^ 53 →
    2 ^ 52 ≤ m * 2 ^ fuel → fuel ≤ e →
    2 ^ 52 ≤ (Double.normalize fuel m e).1 ∧ (Double.normalize fuel m e).1 < 2 ^ 53 ∧
      (Double.normalize fuel m e).1 * 2 ^ (Double.normalize fuel m e).2 = m * 2 ^ e ∧
      e ≤ (Double.normalize fuel m e).2 + fuel ∧ (Double.normalize fuel m e).2 ≤ e := by
  induction fuel with
  | zero =>
    intro m e hm hlt hge he
    have hn : Double.normalize 0 m e = (m, e) := rfl
    rw [hn]
    exact ⟨by simpa using hge, hlt, rfl, by omega, le_refl _⟩
  | succ n ih =>
    intro m e hm hlt hge he
    by_cases hbig : 2 ^ 52 ≤ m
    · have hn : Double.normalize (n + 1) m e = (m, e) := by
        simp only [Double.normalize, hbig, if_true]
      rw [hn]
      exact ⟨hbig, hlt, rfl, by omega, le_refl _⟩
    · have hn : Double.normalize (n + 1) m e = Double.normalize n (2 * m) (e - 1) := by
        simp only [Double.normalize, hbig, if_false]
      rw [hn]
      have hm2 : 0 < 2 * m := by omega
      have hlt2 : 2 * m < 2 ^ 53 := by
        have : (2 : Nat) ^ 53 = 2 * 2 ^ 52 := by norm_num
        omega
      have hge2 : 2 ^ 52 ≤ 2 * m * 2 ^ n := by
        have : m * 2 ^ (n + 1) = 2 * m * 2 ^ n := by ring
        omega
      have he2 : n ≤ e - 1 := by omega
      obtain ⟨h1, h2, h3, h4, h5⟩ := ih (2 * m) (e - 1) hm2 hlt2 hge2 he2
      refine ⟨h1, h2, ?_, by omega, by omega⟩
      rw [h3]
      have : e = (e - 1) + 1 := by omega
      conv_rhs => rw [this, pow_succ]
      ring

theorem Double.scale_exact (m a e c : Nat) (h : m * 2 ^ e = a * 2 ^ c) :
    (m : ℚ) * (2 : ℚ) ^ ((e : ℤ) - (c : ℤ)) = (a : ℚ) := by
  have hq : (m : ℚ) * (2 : ℚ) ^ e = (a : ℚ) * (2 : ℚ) ^ c := by exact_mod_cast h
  rw [zpow_sub₀ (by norm_num : (2 : ℚ) ≠ 0), zpow_natCast, zpow_natCast]
  have h2pos : ((2 : ℚ) ^ c) ≠ 0 := by positivity
  field_simp
  exact hq

/-- The conversion is exact: a converted integer of magnitude below `2 ^ 53` decodes to
itself. -/
theorem Double.toRat_ofInt (i : Int) (h : i.natAbs < 2 ^ 53) :
    Double.toRat (Double.ofInt i) = some (i : ℚ) := by
  by_cases h0 : i = 0
  · subst h0
    simp [Double.ofInt, Double.toRat, Double.zero]
  · have ha : 0 < i.natAbs := Int.natAbs_pos.mpr h0
    have hge : 2 ^ 52 ≤ i.natAbs * 2 ^ 52 := Nat.le_mul_of_pos_left _ ha
    obtain ⟨h1, h2, h3, h4, h5⟩ :=
      Double.normalize_spec 52 i.natAbs 1075 ha h hge (by norm_num)
    have hofInt : Double.ofInt i =
        ⟨decide (i < 0), (Double.normalize 52 i.natAbs 1075).2,
          (Double.normalize 52 i.natAbs 1075).1 - 2 ^ 52⟩ := by
      simp only [Double.ofInt, h0, if_false]
    rw [hofInt]
    generalize Double.normalize 52 i.natAbs 1075 = r at h1 h2 h3 h4 h5
    have he1 : r.2 ≠ 2047 := by omega
    have he2 : r.2 ≠ 0 := by omega
    have hfrac : ((r.1 - 2 ^ 52 : Nat) : ℚ) = (r.1 : ℚ) - 2 ^ 52 := by
      rw [Nat.cast_sub h1]; norm_num
    have hval : (r.1 : ℚ) * (2 : ℚ) ^ ((r.2 : ℤ) - 1075) = (i.natAbs : ℚ) :=
      Double.scale_exact r.1 i.natAbs r.2 1075 h3
    have habs : (i.natAbs : ℚ) = |(i : ℚ)| := by
      rw [Nat.cast_natAbs, Int.cast_abs]
    simp only [Double.toRat, he1, he2, if_false, hfrac]
    have hmag : ((2 : ℚ) ^ 52 + ((r.1 : ℚ) - 2 ^ 52)) * (2 : ℚ) ^ ((r.2 : ℤ) - 1075)
        = |(i : ℚ)| := by
      rw [← habs, ← hval]
      congr 1
      ring
    rw [hmag]
    by_cases hneg : i < 0
    · have : (i : ℚ) < 0 := by exact_mod_cast hneg
      simp [hneg, abs_of_neg this]
    · have : (0 : ℚ) ≤ (i : ℚ) := by exact_mod_cast (not_lt.mp hneg)
      simp [hneg, abs_of_nonneg this]

/-- The conversion of a 32-bit `int` is exact. -/
theorem Double.toRat_ofInt_of_isCInt (i : Int) (h : isCInt i) :
    Double.toRat (Double.ofInt i) = some (i : ℚ) := by
  apply Double.toRat_ofInt
  unfold isCInt at h
  have : (2 : Nat) ^ 53 = 9007199254740992 := by norm_num
  omega

/-- The conversion produces fields that fit their widths. -/
theorem Double.ofInt_wellFormed (i : Int) (h : i.natAbs < 2 ^ 53) :
    (Double.ofInt i).wellFormed := by
  by_cases h0 : i = 0
  · subst h0
    simp [Double.ofInt, Double.zero, Double.wellFormed]
  · have ha : 0 < i.natAbs := Int.natAbs_pos.mpr h0
    have hge : 2 ^ 52 ≤ i.natAbs * 2 ^ 52 := Nat.le_mul_of_pos_left _ ha
    obtain ⟨h1, h2, h3, h4, h5⟩ :=
      Double.normalize_spec 52 i.natAbs 1075 ha h hge (by norm_num)
    simp only [Double.ofInt, h0, if_false, Double.wellFormed]
    have : (2 : Nat) ^ 53 = 2 * 2 ^ 52 := by norm_num
    constructor <;> omega

/-! ## Lemmas on the table model -/

theorem lookupEntry_of_not_mem (key : String) (l : List (String × Value))
    (h : ∀ e ∈ l, e.1 ≠ key) : lookupEntry key l = none := by
  induction l with
  | nil => rfl
  | cons hd tl ih =>
    obtain ⟨k, v⟩ := hd
    have hk : k ≠ key := h (k, v) (List.mem_cons_self _ _)
    simp only [lookupEntry, hk, if_false]
    exact ih (fun e he => h e (List.mem_cons_of_mem _ he))

theorem lookupEntry_append_cons (key : String) (v : Value) (pre post : List (String × Value))
    (h : ∀ e ∈ pre, e.1 ≠ key) : lookupEntry key (pre ++ (key, v) :: post) = some v := by
  induction pre with
  | nil => simp [lookupEntry]
  | cons hd tl ih =>
    obtain ⟨k, w⟩ := hd
    have hk : k ≠ key := h (k, w) (List.mem_cons_self _ _)
    simp only [List.cons_append, lookupEntry, hk, if_false]
    exact ih (fun e he => h e (List.mem_cons_of_mem _ he))

theorem lookupEntry_PutValue_same (t : NetworkTable) (key : String) (v : Value)
    (s : NetworkTableInstance) :
    lookupEntry key ((t.PutValue key v s).tables t.path) = some v := by
  simp [NetworkTable.PutValue, lookupEntry]

theorem lookupEntry_PutValue_other_key (t u : NetworkTable) (key other : String) (v : Value)
    (s : NetworkTableInstance) (h : other ≠ key) :
    lookupEntry other ((t.PutValue key v s).tables u.path) =
      lookupEntry other (s.tables u.path) := by
  by_cases hp : u.path = t.path
  · simp [NetworkTable.PutValue, hp, lookupEntry, Ne.symm h]
  · simp [NetworkTable.PutValue, hp]

theorem tables_PutValue_other_table (t u : NetworkTable) (key : String) (v : Value)
    (s : NetworkTableInstance) (h : u.path ≠ t.path) :
    (t.PutValue key v s).tables u.path = s.tables u.path := by
  simp [NetworkTable.PutValue, h]

theorem GetBoolean_eq (t : NetworkTable) (key : String) (dflt : Bool)
    (s : NetworkTableInstance) :
    (t.GetBoolean key dflt s).1 =
      (match lookupEntry key (s.tables t.path) with
        | some (Value.boolean b) => b
        | _ => dflt) := by
  unfold NetworkTable.GetBoolean
  split <;> simp_all

theorem GetNumber_eq (t : NetworkTable) (key : String) (dflt : Double)
    (s : NetworkTableInstance) :
    (t.GetNumber key dflt s).1 =
      (match lookupEntry key (s.tables t.path) with
        | some (Value.number d) => d
        | _ => dflt) := by
  unfold NetworkTable.GetNumber
  split <;> simp_all

theorem GetBoolean_state (t : NetworkTable) (key : String) (dflt : Bool)
    (s : NetworkTableInstance) : (t.GetBoolean key dflt s).2 = s := by
  unfold NetworkTable.GetBoolean
  split <;> rfl

theorem GetNumber_state (t : NetworkTable) (key : String) (dflt : Double)
    (s : NetworkTableInstance) : (t.GetNumber key dflt s).2 = s := by
  unfold NetworkTable.GetNumber
  split <;> rfl

theorem GetBoolean_of_none (t : NetworkTable) (key : String) (dflt : Bool)
    (s : NetworkTableInstance) (h : lookupEntry key (s.tables t.path) = none) :
    (t.GetBoolean key dflt s).1 = dflt := by
  rw [GetBoolean_eq, h]

theorem GetNumber_of_none (t : NetworkTable) (key : String) (dflt : Double)
    (s : NetworkTableInstance) (h : lookupEntry key (s.tables t.path) = none) :
    (t.GetNumber key dflt s).1 = dflt := by
  rw [GetNumber_eq, h]

theorem GetBoolean_of_boolean (t : NetworkTable) (key : String) (dflt b : Bool)
    (s : NetworkTableInstance)
    (h : lookupEntry key (s.tables t.path) = some (Value.boolean b)) :
    (t.GetBoolean key dflt s).1 = b := by
  rw [GetBoolean_eq, h]

theorem GetNumber_of_number (t : NetworkTable) (key : String) (dflt d : Double)
    (s : NetworkTableInstance)
    (h : lookupEntry key (s.tables t.path) = some (Value.number d)) :
    (t.GetNumber key dflt s).1 = d := by
  rw [GetNumber_eq, h]

/-! ## Reads -/

/-- C1: in a table where none of the keys `tv`, `tx`, `ty`, `ta`, `ts`, `tl` has ever been
written (no write to them is in the table's log), `hasTarget()` returns `false` and
`getTargetX()`, `getTargetY()`, `getTargetArea()`, `getTargetSkew()` and
`getPipelineLatency()` each return exactly `0.0`. -/
theorem C1_defaults_when_never_written (self : Limelight) (s : NetworkTableInstance)
    (h : ∀ key ∈ ["tv", "tx", "ty", "ta", "ts", "tl"],
      ∀ e ∈ s.tables self.limelight.path, e.1 ≠ key) :
    (self.hasTarget s).1 = false ∧ (self.getTargetX s).1 = Double.zero ∧
      (self.getTargetY s).1 = Double.zero ∧ (self.getTargetArea s).1 = Double.zero ∧
      (self.getTargetSkew s).1 = Double.zero ∧
      (self.getPipelineLatency s).1 = Double.zero := by
  have hn : ∀ key ∈ ["tv", "tx", "ty", "ta", "ts", "tl"],
      lookupEntry key (s.tables self.limelight.path) = none :=
    fun key hk => lookupEntry_of_not_mem key _ (h key hk)
  refine ⟨?_, ?_, ?_, ?_, ?_, ?_⟩
  · exact GetBoolean_of_none _ _ _ _ (hn "tv" (by simp))
  · exact GetNumber_of_none _ _ _ _ (hn "tx" (by simp))
  · exact GetNumber_of_none _ _ _ _ (hn "ty" (by simp))
  · exact GetNumber_of_none _ _ _ _ (hn "ta" (by simp))
  · exact GetNumber_of_none _ _ _ _ (hn "ts" (by simp))
  · exact GetNumber_of_none _ _ _ _ (hn "tl" (by simp))

/-- C1 at a table in which only `pipeline`, `camMode` and `ledMode` were written. -/
theorem C1_defaults_when_never_written_witness :
    (∀ key ∈ ["tv", "tx", "ty", "ta", "ts", "tl"],
      ∀ e ∈ sampleModesOnly.tables sampleHandle.limelight.path, e.1 ≠ key) ∧
    (sampleHandle.hasTarget sampleModesOnly).1 = false ∧
      (sampleHandle.getTargetX sampleModesOnly).1 = Double.zero ∧
      (sampleHandle.getTargetY sampleModesOnly).1 = Double.zero ∧
      (sampleHandle.getTargetArea sampleModesOnly).1 = Double.zero ∧
      (sampleHandle.getTargetSkew sampleModesOnly).1 = Double.zero ∧
      (sampleHandle.getPipelineLatency sampleModesOnly).1 = Double.zero :=
  ⟨by decide, C1_defaults_when_never_written sampleHandle sampleModesOnly (by decide)⟩

/-- C2: round-trip identity of reads. If the most recent write to `tv` in the table's log
carries the boolean `b`, `hasTarget()` returns `b`; if the most recent write to `tx`
(resp. `ty`, `ta`, `ts`, `tl`) carries the number `v`, `getTargetX()` (resp.
`getTargetY()`, `getTargetArea()`, `getTargetSkew()`, `getPipelineLatency()`) returns
exactly `v`, bit for bit. -/
theorem C2_reads_round_trip (self : Limelight) (s : NetworkTableInstance) :
    (∀ (b : Bool) (pre post : List (String × Value)),
      s.tables self.limelight.path = pre ++ ("tv", Value.boolean b) :: post →
      (∀ e ∈ pre, e.1 ≠ "tv") → (self.hasTarget s).1 = b) ∧
    (∀ (v : Double) (pre post : List (String × Value)),
      s.tables self.limelight.path = pre ++ ("tx", Value.number v) :: post →
      (∀ e ∈ pre, e.1 ≠ "tx") → (self.getTargetX s).1 = v) ∧
    (∀ (v : Double) (pre post : List (String × Value)),
      s.tables self.limelight.path = pre ++ ("ty", Value.number v) :: post →
      (∀ e ∈ pre, e.1 ≠ "ty") → (self.getTargetY s).1 = v) ∧
    (∀ (v : Double) (pre post : List (String × Value)),
      s.tables self.limelight.path = pre ++ ("ta", Value.number v) :: post →
      (∀ e ∈ pre, e.1 ≠ "ta") → (self.getTargetArea s).1 = v) ∧
    (∀ (v : Double) (pre post : List (String × Value)),
      s.tables self.limelight.path = pre ++ ("ts", Value.number v) :: post →
      (∀ e ∈ pre, e.1 ≠ "ts") → (self.getTargetSkew s).1 = v) ∧
    (∀ (v : Double) (pre post : List (String × Value)),
      s.tables self.limelight.path = pre ++ ("tl", Value.number v) :: post →
      (∀ e ∈ pre, e.1 ≠ "tl") → (self.getPipelineLatency s).1 = v) := by
  refine ⟨?_, ?_, ?_, ?_, ?_, ?_⟩
  · intro b pre post hs hpre
    apply GetBoolean_of_boolean
    rw [hs]
    exact lookupEntry_append_cons _ _ _ _ hpre
  all_goals
    intro v pre post hs hpre
    apply GetNumber_of_number
    rw [hs]
    exact lookupEntry_append_cons _ _ _ _ hpre

/-- C2 at a table in which all six keys were published, `tx` first with `7` and then with
`3.5`, `ta` with a NaN: each accessor returns the value last written. -/
theorem C2_reads_round_trip_witness :
    (sampleHandle.hasTarget samplePublished).1 = true ∧
      (sampleHandle.getTargetX samplePublished).1 = Double.threeAndHalf ∧
      (sampleHandle.getTargetY samplePublished).1 = Double.minusTwelveAndQuarter ∧
      (sampleHandle.getTargetArea samplePublished).1 = Double.quietNaN ∧
      (sampleHandle.getTargetSkew samplePublished).1 = Double.ofInt (-45) ∧
      (sampleHandle.getPipelineLatency samplePublished).1 = Double.ofInt 21 :=
  ⟨(C2_reads_round_trip sampleHandle samplePublished).1 true
      [("tx", Value.number Double.threeAndHalf)]
      [("tx", Value.number (Double.ofInt 7)), ("ty", Value.number Double.minusTwelveAndQuarter),
        ("ta", Value.number Double.quietNaN), ("ts", Value.number (Double.ofInt (-45))),
        ("tl", Value.number (Double.ofInt 21))]
      (by decide) (by decide),
    (C2_reads_round_trip sampleHandle samplePublished).2.1 Double.threeAndHalf []
      [("tv", Value.boolean true),
        ("tx", Value.number (Double.ofInt 7)), ("ty", Value.number Double.minusTwelveAndQuarter),
        ("ta", Value.number Double.quietNaN), ("ts", Value.number (Double.ofInt (-45))),
        ("tl", Value.number (Double.ofInt 21))]
      (by decide) (by decide),
    (C2_reads_round_trip sampleHandle samplePublished).2.2.1 Double.minusTwelveAndQuarter
      [("tx", Value.number Double.threeAndHalf), ("tv", Value.boolean true),
        ("tx", Value.number (Double.ofInt 7))]
      [("ta", Value.number Double.quietNaN), ("ts", Value.number (Double.ofInt (-45))),
        ("tl", Value.number (Double.ofInt 21))]
      (by decide) (by decide),
    (C2_reads_round_trip sampleHandle samplePublished).2.2.2.1 Double.quietNaN
      [("tx", Value.number Double.threeAndHalf), ("tv", Value.boolean true),
        ("tx", Value.number (Double.ofInt 7)), ("ty", Value.number Double.minusTwelveAndQuarter)]
      [("ts", Value.number (Double.ofInt (-45))), ("tl", Value.number (Double.ofInt 21))]
      (by decide) (by decide),
    (C2_reads_round_trip sampleHandle samplePublished).2.2.2.2.1 (Double.ofInt (-45))
      [("tx", Value.number Double.threeAndHalf), ("tv", Value.boolean true),
        ("tx", Value.number (Double.ofInt 7)), ("ty", Value.number Double.minusTwelveAndQuarter),
        ("ta", Value.number Double.quietNaN)]
      [("tl", Value.number (Double.ofInt 21))]
      (by decide) (by decide),
    (C2_reads_round_trip sampleHandle samplePublished).2.2.2.2.2 (Double.ofInt 21)
      [("tx", Value.number Double.threeAndHalf), ("tv", Value.boolean true),
        ("tx", Value.number (Double.ofInt 7)), ("ty", Value.number Double.minusTwelveAndQuarter),
        ("ta", Value.number Double.quietNaN), ("ts", Value.number (Double.ofInt (-45)))]
      []
      (by decide) (by decide)⟩

/-- C9: reads fall back to the default on a type mismatch. When `tv` holds a value that
is not a boolean, `hasTarget()` returns `false`; when `tx` (resp. `ty`, `ta`, `ts`, `tl`)
holds a value that is not a number, the corresponding getter returns `0.0`. Every
accessor is a total function with a plain result, so none can signal an error, and none
changes the registry. -/
theorem C9_type_mismatch_falls_back (self : Limelight) (s : NetworkTableInstance) :
    (∀ w : Value, (self.limelight.GetValue "tv" s).1 = some w → (∀ b, w ≠ Value.boolean b) →
      (self.hasTarget s).1 = false) ∧
    (∀ w : Value, (self.limelight.GetValue "tx" s).1 = some w → (∀ d, w ≠ Value.number d) →
      (self.getTargetX s).1 = Double.zero) ∧
    (∀ w : Value, (self.limelight.GetValue "ty" s).1 = some w → (∀ d, w ≠ Value.number d) →
      (self.getTargetY s).1 = Double.zero) ∧
    (∀ w : Value, (self.limelight.GetValue "ta" s).1 = some w → (∀ d, w ≠ Value.number d) →
      (self.getTargetArea s).1 = Double.zero) ∧
    (∀ w : Value, (self.limelight.GetValue "ts" s).1 = some w → (∀ d, w ≠ Value.number d) →
      (self.getTargetSkew s).1 = Double.zero) ∧
    (∀ w : Value, (self.limelight.GetValue "tl" s).1 = some w → (∀ d, w ≠ Value.number d) →
      (self.getPipelineLatency s).1 = Double.zero) ∧
    ((self.hasTarget s).2 = s ∧ (self.getTargetX s).2 = s ∧ (self.getTargetY s).2 = s ∧
      (self.getTargetArea s).2 = s ∧ (self.getTargetSkew s).2 = s ∧
      (self.getPipelineLatency s).2 = s) := by
  refine ⟨?_, ?_, ?_, ?_, ?_, ?_, ?_⟩
  · intro w hw hnb
    have hl : lookupEntry "tv" (s.tables self.limelight.path) = some w := hw
    unfold Limelight.hasTarget
    rw [GetBoolean_eq, hl]
    cases w with
    | boolean b => exact absurd rfl (hnb b)
    | number d => rfl
    | string x => rfl
  pick_goal 6
  · exact ⟨GetBoolean_state _ _ _ _, GetNumber_state _ _ _ _, GetNumber_state _ _ _ _,
      GetNumber_state _ _ _ _, GetNumber_state _ _ _ _, GetNumber_state _ _ _ _⟩
  all_goals
    intro w hw hnd
    first
    | (have hl : lookupEntry "tx" (s.tables self.limelight.path) = some w := hw
       unfold Limelight.getTargetX)
    | (have hl : lookupEntry "ty" (s.tables self.limelight.path) = some w := hw
       unfold Limelight.getTargetY)
    | (have hl : lookupEntry "ta" (s.tables self.limelight.path) = some w := hw
       unfold Limelight.getTargetArea)
    | (have hl : lookupEntry "ts" (s.tables self.limelight.path) = some w := hw
       unfold Limelight.getTargetSkew)
    | (have hl : lookupEntry "tl" (s.tables self.limelight.path) = some w := hw
       unfold Limelight.getPipelineLatency)
    rw [GetNumber_eq, hl]
    cases w with
    | boolean b => rfl
    | number d => exact absurd rfl (hnd d)
    | string x => rfl

/-- C9 at a table in which `tv` holds the number `1.0` and the numeric keys hold strings
and booleans. -/
theorem C9_type_mismatch_falls_back_witness :
    (sampleHandle.limelight.GetValue "tv" sampleMistyped).1 =
        some (Value.number (Double.ofInt 1)) ∧
      (sampleHandle.hasTarget sampleMistyped).1 = false ∧
      (sampleHandle.getTargetX sampleMistyped).1 = Double.zero ∧
      (sampleHandle.getTargetY sampleMistyped).1 = Double.zero ∧
      (sampleHandle.getTargetArea sampleMistyped).1 = Double.zero ∧
      (sampleHandle.getTargetSkew sampleMistyped).1 = Double.zero ∧
      (sampleHandle.getPipelineLatency sampleMistyped).1 = Double.zero :=
  ⟨by decide,
    (C9_type_mismatch_falls_back sampleHandle sampleMistyped).1
      (Value.number (Double.ofInt 1)) (by decide) (fun b hb => Value.noConfusion hb),
    (C9_type_mismatch_falls_back sampleHandle sampleMistyped).2.1
      (Value.string "left") (by decide) (fun d hd => Value.noConfusion hd),
    (C9_type_mismatch_falls_back sampleHandle sampleMistyped).2.2.1
      (Value.boolean true) (by decide) (fun d hd => Value.noConfusion hd),
    (C9_type_mismatch_falls_back sampleHandle sampleMistyped).2.2.2.1
      (Value.string "") (by decide) (fun d hd => Value.noConfusion hd),
    (C9_type_mismatch_falls_back sampleHandle sampleMistyped).2.2.2.2.1
      (Value.boolean false) (by decide) (fun d hd => Value.noConfusion hd),
    (C9_type_mismatch_falls_back sampleHandle sampleMistyped).2.2.2.2.2.1
      (Value.string "11") (by decide) (fun d hd => Value.noConfusion hd)⟩

/-! ## Writes -/

theorem GetValue_PutNumber_same (t : NetworkTable) (key : String) (d : Double)
    (s : NetworkTableInstance) :
    (t.GetValue key (t.PutNumber key d s)).1 = some (Value.number d) :=
  lookupEntry_PutValue_same t key (Value.number d) s

theorem GetValue_PutNumber_other_key (t u : NetworkTable) (key other : String) (d : Double)
    (s : NetworkTableInstance) (h : other ≠ key) :
    (u.GetValue other (t.PutNumber key d s)).1 = (u.GetValue other s).1 :=
  lookupEntry_PutValue_other_key t u key other (Value.number d) s h

/-- C3: after `setLEDMode(m)` the key `ledMode` holds the number `0`, `1`, `2`, `3` for
`m` = `pipeline`, `off`, `blink`, `on` (the enumerator's integer value, converted
exactly); the encoding lies in `0..3` and distinct modes write distinct numbers. -/
theorem C3_setLEDMode_writes_encoding (self : Limelight) (s : NetworkTableInstance) :
    ((self.limelight.GetValue "ledMode" (self.setLEDMode LEDmode.pipeline s)).1 =
        some (Value.number (Double.ofInt 0)) ∧
      (self.limelight.GetValue "ledMode" (self.setLEDMode LEDmode.off s)).1 =
        some (Value.number (Double.ofInt 1)) ∧
      (self.limelight.GetValue "ledMode" (self.setLEDMode LEDmode.blink s)).1 =
        some (Value.number (Double.ofInt 2)) ∧
      (self.limelight.GetValue "ledMode" (self.setLEDMode LEDmode.on s)).1 =
        some (Value.number (Double.ofInt 3))) ∧
    (Double.toRat (Double.ofInt 0) = some 0 ∧ Double.toRat (Double.ofInt 1) = some 1 ∧
      Double.toRat (Double.ofInt 2) = some 2 ∧ Double.toRat (Double.ofInt 3) = some 3) ∧
    (∀ mode : LEDmode, 0 ≤ mode.toInt ∧ mode.toInt ≤ 3) ∧
    Function.Injective LEDmode.toInt ∧
    Function.Injective (fun mode : LEDmode => Double.ofInt mode.toInt) := by
  refine ⟨⟨?_, ?_, ?_, ?_⟩, ⟨?_, ?_, ?_, ?_⟩, ?_, ?_, ?_⟩
  · exact GetValue_PutNumber_same _ _ _ _
  · exact GetValue_PutNumber_same _ _ _ _
  · exact GetValue_PutNumber_same _ _ _ _
  · exact GetValue_PutNumber_same _ _ _ _
  · simpa using Double.toRat_ofInt 0 (by decide)
  · simpa using Double.toRat_ofInt 1 (by decide)
  · simpa using Double.toRat_ofInt 2 (by decide)
  · simpa using Double.toRat_ofInt 3 (by decide)
  · intro mode; cases mode <;> decide
  · intro a b hab; cases a <;> cases b <;> first | rfl | exact absurd hab (by decide)
  · intro a b hab; cases a <;> cases b <;> first | rfl | exact absurd hab (by decide)

/-- C4 (the code at the failing input): on the empty registry `setCamMode(driver)` leaves
`camMode` holding `0.0`, which decodes to `0`, and not the encoding `1` of `driver`. -/
theorem C4_setCamMode_driver_holds_zero :
    (sampleHandle.limelight.GetValue "camMode"
        (sampleHandle.setCamMode CamMode.driver NetworkTableInstance.empty)).1 =
      some (Value.number Double.zero) ∧
    Double.toRat Double.zero = some 0 ∧
    CamMode.driver.toInt = 1 ∧
    Double.toRat (Double.ofInt CamMode.driver.toInt) = some 1 ∧
    (sampleHandle.limelight.GetValue "camMode"
        (sampleHandle.setCamMode CamMode.driver NetworkTableInstance.empty)).1 ≠
      some (Value.number (Double.ofInt CamMode.driver.toInt)) := by
  refine ⟨by decide, ?_, rfl, ?_, by decide⟩
  · simp [Double.toRat, Double.zero]
  · simpa using Double.toRat_ofInt 1 (by decide)

/-- C5: for every registry state and every mode, after `setCamMode(mode)` the key
`camMode` holds the number `0` (the literal `0.0`); `setCamMode(driver)` and
`setCamMode(vision)` produce the same registry state, and no call makes `camMode` hold a
number that decodes to `1`. -/
theorem C5_setCamMode_always_writes_zero (self : Limelight) (s : NetworkTableInstance) :
    (∀ mode : CamMode, (self.limelight.GetValue "camMode" (self.setCamMode mode s)).1 =
      some (Value.number Double.zero)) ∧
    Double.toRat Double.zero = some 0 ∧
    self.setCamMode CamMode.driver s = self.setCamMode CamMode.vision s ∧
    (∀ (mode : CamMode) (d : Double), Double.toRat d = some 1 →
      (self.limelight.GetValue "camMode" (self.setCamMode mode s)).1 ≠
        some (Value.number d)) := by
  have hz : Double.toRat Double.zero = some 0 := by simp [Double.toRat, Double.zero]
  refine ⟨fun mode => GetValue_PutNumber_same _ _ _ _, hz, rfl, ?_⟩
  intro mode d hd hget
  have h1 : (self.limelight.GetValue "camMode" (self.setCamMode mode s)).1 =
      some (Value.number Double.zero) := GetValue_PutNumber_same _ _ _ _
  rw [h1] at hget
  have hdz : Double.zero = d := by
    injection hget with h2
    injection h2
  rw [← hdz, hz] at hd
  have : (0 : ℚ) = 1 := Option.some.inj hd
  exact absurd this (by norm_num)

/-- C5 at the double `1.0`: after `setCamMode(driver)` on a registry where `camMode` was
written before, `camMode` does not hold `1.0`. -/
theorem C5_setCamMode_always_writes_zero_witness :
    Double.toRat (Double.ofInt 1) = some 1 ∧
    (sampleHandle.limelight.GetValue "camMode"
        (sampleHandle.setCamMode CamMode.driver sampleModesOnly)).1 ≠
      some (Value.number (Double.ofInt 1)) :=
  ⟨by simpa using Double.toRat_ofInt 1 (by decide),
    (C5_setCamMode_always_writes_zero sampleHandle sampleModesOnly).2.2.2 CamMode.driver
      (Double.ofInt 1) (by simpa using Double.toRat_ofInt 1 (by decide))⟩

/-- C6: for every registry state and every `int` value `ID`, in or out of `0..9`,
`setPipeline(ID)` is defined (a total function, no error result) and afterwards the key
`pipeline` holds the double converted from `ID`, which decodes to exactly `ID`: no bounds
check, no clamping. -/
theorem C6_setPipeline_passes_through (self : Limelight) (s : NetworkTableInstance)
    (ID : Int) (h : isCInt ID) :
    (self.limelight.GetValue "pipeline" (self.setPipeline ID s)).1 =
      some (Value.number (Double.ofInt ID)) ∧
    Double.toRat (Double.ofInt ID) = some (ID : ℚ) ∧
    (Double.ofInt ID).wellFormed :=
  ⟨GetValue_PutNumber_same _ _ _ _, Double.toRat_ofInt_of_isCInt ID h,
    Double.ofInt_wellFormed ID (by
      unfold isCInt at h
      have : (2 : Nat) ^ 53 = 9007199254740992 := by norm_num
      omega)⟩

/-- C6 at the out-of-range ids `-1` and `99`, on a registry where `pipeline` held `5`. -/
theorem C6_setPipeline_passes_through_witness :
    (isCInt (-1) ∧
      (sampleHandle.limelight.GetValue "pipeline" (sampleHandle.setPipeline (-1)
        sampleModesOnly)).1 = some (Value.number (Double.ofInt (-1))) ∧
      Double.toRat (Double.ofInt (-1)) = some (((-1 : Int) : ℚ)) ∧
      (Double.ofInt (-1)).wellFormed) ∧
    (isCInt 99 ∧
      (sampleHandle.limelight.GetValue "pipeline" (sampleHandle.setPipeline 99
        sampleModesOnly)).1 = some (Value.number (Double.ofInt 99)) ∧
      Double.toRat (Double.ofInt 99) = some (((99 : Int) : ℚ)) ∧
      (Double.ofInt 99).wellFormed) :=
  ⟨⟨by decide, C6_setPipeline_passes_through sampleHandle sampleModesOnly (-1) (by decide)⟩,
    ⟨by decide, C6_setPipeline_passes_through sampleHandle sampleModesOnly 99 (by decide)⟩⟩

theorem GetBoolean_PutNumber_other_key (t u : NetworkTable) (key other : String)
    (d : Double) (dflt : Bool) (s : NetworkTableInstance) (h : other ≠ key) :
    (u.GetBoolean other dflt (t.PutNumber key d s)).1 = (u.GetBoolean other dflt s).1 := by
  rw [GetBoolean_eq, GetBoolean_eq]
  have hl := lookupEntry_PutValue_other_key t u key other (Value.number d) s h
  unfold NetworkTable.PutNumber
  rw [hl]

theorem GetNumber_PutNumber_other_key (t u : NetworkTable) (key other : String)
    (d dflt : Double) (s : NetworkTableInstance) (h : other ≠ key) :
    (u.GetNumber other dflt (t.PutNumber key d s)).1 = (u.GetNumber other dflt s).1 := by
  rw [GetNumber_eq, GetNumber_eq]
  have hl := lookupEntry_PutValue_other_key t u key other (Value.number d) s h
  unfold NetworkTable.PutNumber
  rw [hl]

/-- A write of a number to a key that is none of `tv`, `tx`, `ty`, `ta`, `ts`, `tl`,
through any table handle, leaves the results of all six typed accessors as they were. -/
theorem accessors_PutNumber_other_key (self : Limelight) (t : NetworkTable) (key : String)
    (d : Double) (s : NetworkTableInstance)
    (hk : "tv" ≠ key ∧ "tx" ≠ key ∧ "ty" ≠ key ∧ "ta" ≠ key ∧ "ts" ≠ key ∧ "tl" ≠ key) :
    (self.hasTarget (t.PutNumber key d s)).1 = (self.hasTarget s).1 ∧
      (self.getTargetX (t.PutNumber key d s)).1 = (self.getTargetX s).1 ∧
      (self.getTargetY (t.PutNumber key d s)).1 = (self.getTargetY s).1 ∧
      (self.getTargetArea (t.PutNumber key d s)).1 = (self.getTargetArea s).1 ∧
      (self.getTargetSkew (t.PutNumber key d s)).1 = (self.getTargetSkew s).1 ∧
      (self.getPipelineLatency (t.PutNumber key d s)).1 = (self.getPipelineLatency s).1 :=
  ⟨GetBoolean_PutNumber_other_key _ _ _ _ _ _ _ hk.1,
    GetNumber_PutNumber_other_key _ _ _ _ _ _ _ hk.2.1,
    GetNumber_PutNumber_other_key _ _ _ _ _ _ _ hk.2.2.1,
    GetNumber_PutNumber_other_key _ _ _ _ _ _ _ hk.2.2.2.1,
    GetNumber_PutNumber_other_key _ _ _ _ _ _ _ hk.2.2.2.2.1,
    GetNumber_PutNumber_other_key _ _ _ _ _ _ _ hk.2.2.2.2.2⟩

/-- C10: each mutator overwrites exactly one key. Seen through any table handle `t`,
`setLEDMode` leaves every key other than `ledMode` with its previous value, `setCamMode`
every key other than `camMode`, `setPipeline` every key other than `pipeline`; the value
each one writes is the same whatever the registry held before; and the six typed
accessors of any handle return after each mutator what they returned before it. -/
theorem C10_mutators_overwrite_one_key (self : Limelight) (s : NetworkTableInstance)
    (t : NetworkTable) (key : String) (other : Limelight) :
    (∀ mode : LEDmode, key ≠ "ledMode" →
      (t.GetValue key (self.setLEDMode mode s)).1 = (t.GetValue key s).1) ∧
    (∀ mode : CamMode, key ≠ "camMode" →
      (t.GetValue key (self.setCamMode mode s)).1 = (t.GetValue key s).1) ∧
    (∀ ID : Int, key ≠ "pipeline" →
      (t.GetValue key (self.setPipeline ID s)).1 = (t.GetValue key s).1) ∧
    (∀ (mode : LEDmode) (s' : NetworkTableInstance),
      (self.limelight.GetValue "ledMode" (self.setLEDMode mode s)).1 =
        (self.limelight.GetValue "ledMode" (self.setLEDMode mode s')).1) ∧
    (∀ (mode : CamMode) (s' : NetworkTableInstance),
      (self.limelight.GetValue "camMode" (self.setCamMode mode s)).1 =
        (self.limelight.GetValue "camMode" (self.setCamMode mode s')).1) ∧
    (∀ (ID : Int) (s' : NetworkTableInstance),
      (self.limelight.GetValue "pipeline" (self.setPipeline ID s)).1 =
        (self.limelight.GetValue "pipeline" (self.setPipeline ID s')).1) ∧
    (∀ mode : LEDmode,
      (other.hasTarget (self.setLEDMode mode s)).1 = (other.hasTarget s).1 ∧
      (other.getTargetX (self.setLEDMode mode s)).1 = (other.getTargetX s).1 ∧
      (other.getTargetY (self.setLEDMode mode s)).1 = (other.getTargetY s).1 ∧
      (other.getTargetArea (self.setLEDMode mode s)).1 = (other.getTargetArea s).1 ∧
      (other.getTargetSkew (self.setLEDMode mode s)).1 = (other.getTargetSkew s).1 ∧
      (other.getPipelineLatency (self.setLEDMode mode s)).1 =
        (other.getPipelineLatency s).1) ∧
    (∀ mode : CamMode,
      (other.hasTarget (self.setCamMode mode s)).1 = (other.hasTarget s).1 ∧
      (other.getTargetX (self.setCamMode mode s)).1 = (other.getTargetX s).1 ∧
      (other.getTargetY (self.setCamMode mode s)).1 = (other.getTargetY s).1 ∧
      (other.getTargetArea (self.setCamMode mode s)).1 = (other.getTargetArea s).1 ∧
      (other.getTargetSkew (self.setCamMode mode s)).1 = (other.getTargetSkew s).1 ∧
      (other.getPipelineLatency (self.setCamMode mode s)).1 =
        (other.getPipelineLatency s).1) ∧
    (∀ ID : Int,
      (other.hasTarget (self.setPipeline ID s)).1 = (other.hasTarget s).1 ∧
      (other.getTargetX (self.setPipeline ID s)).1 = (other.getTargetX s).1 ∧
      (other.getTargetY (self.setPipeline ID s)).1 = (other.getTargetY s).1 ∧
      (other.getTargetArea (self.setPipeline ID s)).1 = (other.getTargetArea s).1 ∧
      (other.getTargetSkew (self.setPipeline ID s)).1 = (other.getTargetSkew s).1 ∧
      (other.getPipelineLatency (self.setPipeline ID s)).1 =
        (other.getPipelineLatency s).1) := by
  refine ⟨?_, ?_, ?_, ?_, ?_, ?_, ?_, ?_, ?_⟩
  · intro mode hk
    exact GetValue_PutNumber_other_key _ _ _ _ _ _ hk
  · intro mode hk
    exact GetValue_PutNumber_other_key _ _ _ _ _ _ hk
  · intro ID hk
    exact GetValue_PutNumber_other_key _ _ _ _ _ _ hk
  · intro mode s'
    exact (GetValue_PutNumber_same _ _ _ _).trans (GetValue_PutNumber_same _ _ _ _).symm
  · intro mode s'
    exact (GetValue_PutNumber_same _ _ _ _).trans (GetValue_PutNumber_same _ _ _ _).symm
  · intro ID s'
    exact (GetValue_PutNumber_same _ _ _ _).trans (GetValue_PutNumber_same _ _ _ _).symm
  · intro mode
    exact accessors_PutNumber_other_key other self.limelight "ledMode" _ s (by decide)
  · intro mode
    exact accessors_PutNumber_other_key other self.limelight "camMode" _ s (by decide)
  · intro ID
    exact accessors_PutNumber_other_key other self.limelight "pipeline" _ s (by decide)

/-- C10 at the key `tx` of a table where it holds `3.5`: after `setLEDMode(on)`,
`setCamMode(driver)` and `setPipeline(7)` it still holds `3.5`. -/
theorem C10_mutators_overwrite_one_key_witness :
    (sampleHandle.limelight.GetValue "tx" samplePublished).1 =
        some (Value.number Double.threeAndHalf) ∧
      (sampleHandle.limelight.GetValue "tx"
          (sampleHandle.setLEDMode LEDmode.on samplePublished)).1 =
        (sampleHandle.limelight.GetValue "tx" samplePublished).1 ∧
      (sampleHandle.limelight.GetValue "tx"
          (sampleHandle.setCamMode CamMode.driver samplePublished)).1 =
        (sampleHandle.limelight.GetValue "tx" samplePublished).1 ∧
      (sampleHandle.limelight.GetValue "tx"
          (sampleHandle.setPipeline 7 samplePublished)).1 =
        (sampleHandle.limelight.GetValue "tx" samplePublished).1 :=
  ⟨by decide,
    (C10_mutators_overwrite_one_key sampleHandle samplePublished sampleHandle.limelight "tx"
      sampleHandle).1 LEDmode.on (by decide),
    (C10_mutators_overwrite_one_key sampleHandle samplePublished sampleHandle.limelight "tx"
      sampleHandle).2.1 CamMode.driver (by decide),
    (C10_mutators_overwrite_one_key sampleHandle samplePublished sampleHandle.limelight "tx"
      sampleHandle).2.2.1 7 (by decide)⟩

/-! ## Handles and the shared table -/

theorem GetValue_PutValue_same (t : NetworkTable) (key : String) (v : Value)
    (s : NetworkTableInstance) : (t.GetValue key (t.PutValue key v s)).1 = some v :=
  lookupEntry_PutValue_same t key v s

theorem GetValue_PutValue_other_table (t u : NetworkTable) (key other : String) (v : Value)
    (s : NetworkTableInstance) (h : u.path ≠ t.path) :
    (u.GetValue other (t.PutValue key v s)).1 = (u.GetValue other s).1 := by
  unfold NetworkTable.GetValue
  rw [tables_PutValue_other_table t u key v s h]

theorem hasTarget_PutBoolean (self : Limelight) (b : Bool) (s : NetworkTableInstance) :
    (self.hasTarget (self.limelight.PutBoolean "tv" b s)).1 = b :=
  GetBoolean_of_boolean _ _ _ _ _ (lookupEntry_PutValue_same _ _ _ _)

theorem GetNumber_PutNumber_same (t : NetworkTable) (key : String) (dflt v : Double)
    (s : NetworkTableInstance) : (t.GetNumber key dflt (t.PutNumber key v s)).1 = v :=
  GetNumber_of_number _ _ _ _ _ (lookupEntry_PutValue_same _ _ _ _)

/-- C7: handles share a table exactly by name. For handles constructed with the names
`n1` and `n2` (in any registry states), a write made through the first in any registry
state `s` (by `setLEDMode`, `setCamMode`, `setPipeline` or a raw write through `get()`)
is read back through the second when `n1 = n2`, and leaves every key seen through the
second unchanged when `n1 ≠ n2`; constructing a handle changes nothing. -/
theorem C7_handles_share_by_name (s0 s0' s : NetworkTableInstance) (n1 n2 : String)
    (h1 h2 : Limelight) (hc1 : h1 = (Limelight.new n1 s0).1)
    (hc2 : h2 = (Limelight.new n2 s0').1) :
    (Limelight.new n1 s0).2 = s0 ∧
    (n1 = n2 →
      (∀ mode : LEDmode, ((h2.get (h1.setLEDMode mode s)).1.GetValue "ledMode"
        (h1.setLEDMode mode s)).1 = some (Value.number (Double.ofInt mode.toInt))) ∧
      (∀ mode : CamMode, ((h2.get (h1.setCamMode mode s)).1.GetValue "camMode"
        (h1.setCamMode mode s)).1 = some (Value.number Double.zero)) ∧
      (∀ ID : Int, ((h2.get (h1.setPipeline ID s)).1.GetValue "pipeline"
        (h1.setPipeline ID s)).1 = some (Value.number (Double.ofInt ID))) ∧
      (∀ (key : String) (v : Value), ((h2.get s).1.GetValue key
        ((h1.get s).1.PutValue key v s)).1 = some v) ∧
      (∀ b : Bool, (h2.hasTarget ((h1.get s).1.PutBoolean "tv" b s)).1 = b) ∧
      (∀ v : Double, (h2.getTargetX ((h1.get s).1.PutNumber "tx" v s)).1 = v) ∧
      (∀ v : Double, (h2.getTargetY ((h1.get s).1.PutNumber "ty" v s)).1 = v) ∧
      (∀ v : Double, (h2.getTargetArea ((h1.get s).1.PutNumber "ta" v s)).1 = v) ∧
      (∀ v : Double, (h2.getTargetSkew ((h1.get s).1.PutNumber "ts" v s)).1 = v) ∧
      (∀ v : Double, (h2.getPipelineLatency ((h1.get s).1.PutNumber "tl" v s)).1 = v)) ∧
    (n1 ≠ n2 → ∀ key : String,
      (∀ mode : LEDmode, ((h2.get s).1.GetValue key (h1.setLEDMode mode s)).1 =
        ((h2.get s).1.GetValue key s).1) ∧
      (∀ mode : CamMode, ((h2.get s).1.GetValue key (h1.setCamMode mode s)).1 =
        ((h2.get s).1.GetValue key s).1) ∧
      (∀ ID : Int, ((h2.get s).1.GetValue key (h1.setPipeline ID s)).1 =
        ((h2.get s).1.GetValue key s).1) ∧
      (∀ (written : String) (v : Value),
        ((h2.get s).1.GetValue key ((h1.get s).1.PutValue written v s)).1 =
          ((h2.get s).1.GetValue key s).1)) := by
  subst hc1 hc2
  refine ⟨rfl, ?_, ?_⟩
  · intro hn
    subst hn
    refine ⟨?_, ?_, ?_, ?_, ?_, ?_, ?_, ?_, ?_, ?_⟩
    · intro mode; exact GetValue_PutNumber_same _ _ _ _
    · intro mode; exact GetValue_PutNumber_same _ _ _ _
    · intro ID; exact GetValue_PutNumber_same _ _ _ _
    · intro key v; exact GetValue_PutValue_same _ _ _ _
    · intro b; exact hasTarget_PutBoolean _ _ _
    · intro v; exact GetNumber_PutNumber_same _ _ _ _ _
    · intro v; exact GetNumber_PutNumber_same _ _ _ _ _
    · intro v; exact GetNumber_PutNumber_same _ _ _ _ _
    · intro v; exact GetNumber_PutNumber_same _ _ _ _ _
    · intro v; exact GetNumber_PutNumber_same _ _ _ _ _
  · intro hn key
    have hp : (Limelight.new n2 s0').1.limelight.path ≠ (Limelight.new n1 s0).1.limelight.path :=
      fun h => hn h.symm
    refine ⟨?_, ?_, ?_, ?_⟩
    · intro mode; exact GetValue_PutValue_other_table _ _ _ _ _ _ hp
    · intro mode; exact GetValue_PutValue_other_table _ _ _ _ _ _ hp
    · intro ID; exact GetValue_PutValue_other_table _ _ _ _ _ _ hp
    · intro written v; exact GetValue_PutValue_other_table _ _ _ _ _ _ hp

/-- C7 at two handles named "limelight" (the second sees `setPipeline(4)` of the first)
and at handles named "limelight" and "limelight-rear" (the key `pipeline` seen through
the second is as before). -/
theorem C7_handles_share_by_name_witness :
    (((Limelight.new "limelight" samplePublished).1.get
        ((Limelight.new "limelight" NetworkTableInstance.empty).1.setPipeline 4
          sampleModesOnly)).1.GetValue "pipeline"
        ((Limelight.new "limelight" NetworkTableInstance.empty).1.setPipeline 4
          sampleModesOnly)).1 = some (Value.number (Double.ofInt 4)) ∧
    (((Limelight.new "limelight-rear" samplePublished).1.get sampleModesOnly).1.GetValue
        "pipeline"
        ((Limelight.new "limelight" NetworkTableInstance.empty).1.setPipeline 4
          sampleModesOnly)).1 =
      (((Limelight.new "limelight-rear" samplePublished).1.get sampleModesOnly).1.GetValue
        "pipeline" sampleModesOnly).1 :=
  ⟨((C7_handles_share_by_name NetworkTableInstance.empty samplePublished sampleModesOnly
      "limelight" "limelight" _ _ rfl rfl).2.1 rfl).2.2.1 4,
    ((C7_handles_share_by_name NetworkTableInstance.empty samplePublished sampleModesOnly
      "limelight" "limelight-rear" _ _ rfl rfl).2.2 (by decide) "pipeline").2.2.1 4⟩

/-- C8: `get()` returns the table the typed accessors read. A raw write of a boolean to
`tv`, or of a number `v` to `tx`, `ty`, `ta`, `ts`, `tl`, through the reference `get()`
returns is returned bit for bit by `hasTarget()`, `getTargetX()`, `getTargetY()`,
`getTargetArea()`, `getTargetSkew()`, `getPipelineLatency()` of the same handle (so
`tx = 3.5` reads back as `3.5`); `get()` returns the member `limelight` and leaves the
registry as it was. -/
theorem C8_get_shares_table (self : Limelight) (s : NetworkTableInstance) :
    (self.get s).2 = s ∧ (self.get s).1 = self.limelight ∧
    (∀ b : Bool, (self.hasTarget ((self.get s).1.PutBoolean "tv" b (self.get s).2)).1 = b) ∧
    (∀ v : Double,
      (self.getTargetX ((self.get s).1.PutNumber "tx" v (self.get s).2)).1 = v ∧
      (self.getTargetY ((self.get s).1.PutNumber "ty" v (self.get s).2)).1 = v ∧
      (self.getTargetArea ((self.get s).1.PutNumber "ta" v (self.get s).2)).1 = v ∧
      (self.getTargetSkew ((self.get s).1.PutNumber "ts" v (self.get s).2)).1 = v ∧
      (self.getPipelineLatency ((self.get s).1.PutNumber "tl" v (self.get s).2)).1 = v) ∧
    (self.getTargetX ((self.get s).1.PutNumber "tx" Double.threeAndHalf (self.get s).2)).1 =
      Double.threeAndHalf ∧
    Double.toRat Double.threeAndHalf = some (7 / 2) := by
  refine ⟨rfl, rfl, fun b => hasTarget_PutBoolean _ _ _, fun v => ⟨?_, ?_, ?_, ?_, ?_⟩, ?_, ?_⟩
  · exact GetNumber_PutNumber_same _ _ _ _ _
  · exact GetNumber_PutNumber_same _ _ _ _ _
  · exact GetNumber_PutNumber_same _ _ _ _ _
  · exact GetNumber_PutNumber_same _ _ _ _ _
  · exact GetNumber_PutNumber_same _ _ _ _ _
  · exact GetNumber_PutNumber_same _ _ _ _ _
  · simp only [Double.toRat, Double.threeAndHalf]
    norm_num
